import Mathlib

/-!
Shallow embedding of the spreadsheet-backed record store of the
Club-Soccer-Web repository (src/data/models.py, src/data/member_crud.py,
src/data/event_crud.py, src/data/attendance_crud.py).

The remote spreadsheet tab is modelled as a `List (List String)` of cell
rows; every CRUD operation is a pure function of that state.  The current
wall-clock time produced by `datetime.now().isoformat()` is modelled by an
explicit `now : String` argument.  Python floats in the analytics layer are
modelled by `ℚ` (the concrete rates proved here are exactly representable
in binary floating point, so no rounding is lost by that choice).
-/

/-- Python truthiness of an optional string: `None` and `""` are falsy. -/
def truthy (o : Option String) : Bool := o.getD "" != ""

/-- Python `s or d` for strings: `d` when `s` is empty. -/
def pyOr (s d : String) : String := if s = "" then d else s

/-- Python `x or ""` used when serializing an optional field. -/
def optToCell (o : Option String) : String := o.getD ""

/-- Python `cell if cell else None` used when parsing an optional field. -/
def cellToOpt (s : String) : Option String := if s = "" then none else some s

/-- Indexing into a row padded with empty strings (`from_sheet_row` pads the
row with `""` up to the entity arity and then indexes; `getD` with default
`""` is exactly that access). -/
def cell (row : List String) (i : Nat) : String := row.getD i ""

/-- Python `str.isdigit()`: nonempty and all decimal digits. -/
def isDigitStr (s : String) : Bool := s ≠ "" && s.data.all Char.isDigit

/-- Python `str.lower()`, character by character. -/
def strToLower (s : String) : String := ⟨s.data.map Char.toLower⟩

/-- Split on a one-character separator (all separators used by the source:
`"@"`, `"."`, `":"`, `"-"` — are one character), with the semantics of both
`str.split` and `re`-style alternation over the pieces: kernel-computable
counterpart of `String.splitOn`. -/
def splitOnCharAux (sep : Char) : List Char → List Char → List (List Char)
  | [], acc => [acc.reverse]
  | c :: rest, acc =>
    if c == sep then acc.reverse :: splitOnCharAux sep rest []
    else splitOnCharAux sep rest (c :: acc)

/-- Split a string on a one-character separator. -/
def splitOnChar (sep : Char) (s : String) : List String :=
  (splitOnCharAux sep s.data []).map (fun l => ⟨l⟩)

/-- Value of a decimal digit string, as `int()` computes it. -/
def strToNatList (l : List Char) : Nat :=
  l.foldl (fun a c => a * 10 + (c.toNat - 48)) 0

/-- Value of a decimal digit string, as `int()` computes it. -/
def strToNat (s : String) : Nat := strToNatList s.data

/-- Decimal digits of `n`, fuel-based so that it is structurally recursive
(and hence kernel-computable); models Python `str` of a nonnegative int. -/
def natReprAux : Nat → Nat → List Char
  | 0, _ => []
  | fuel + 1, n =>
    if n < 10 then [Nat.digitChar n]
    else natReprAux fuel (n / 10) ++ [Nat.digitChar (n % 10)]

/-- Decimal representation of a natural number (Python `str(n)` for `n ≥ 0`). -/
def natRepr (n : Nat) : String := ⟨natReprAux (n + 1) n⟩

/-- Python `str` of an int, including the sign. -/
def intRepr (k : Int) : String :=
  if k < 0 then "-" ++ natRepr k.natAbs else natRepr k.toNat

/-- The Max Attendees cell written by `Event.to_sheet_row`:
`str(self.max_attendees) if self.max_attendees else ""`, where both `None`
and `0` are falsy. -/
def maxAttendeesCell (o : Option Int) : String :=
  match o with
  | some k => if k = 0 then "" else intRepr k
  | none => ""

/-- Models `datetime.strptime(s, "%H:%M")`: `H` is 1-2 digits valued 0-23,
`M` is 1-2 digits valued 0-59, joined by a single colon with nothing else.
Returns the time as minutes since midnight. -/
def parseHour (h : String) : Option Nat :=
  if isDigitStr h && (h.length = 1 || h.length = 2) then
    if strToNat h ≤ 23 then some (strToNat h) else none
  else none

/-- Minute component of `strptime(s, "%H:%M")`. -/
def parseMinute (m : String) : Option Nat :=
  if isDigitStr m && (m.length = 1 || m.length = 2) then
    if strToNat m ≤ 59 then some (strToNat m) else none
  else none

/-- Full `strptime(s, "%H:%M")`, returning minutes since midnight. -/
def parseTime (s : String) : Option Nat :=
  match splitOnChar ':' s with
  | [h, m] =>
    match parseHour h, parseMinute m with
    | some hv, some mv => some (hv * 60 + mv)
    | _, _ => none
  | _ => none

/-- `_is_valid_time` of models.py: `strptime(s, "%H:%M")` succeeds. -/
def is_valid_time (s : String) : Bool := (parseTime s).isSome

/-- Gregorian leap-year rule used by `datetime`. -/
def isLeapYear (y : Nat) : Bool := y % 4 = 0 && (y % 100 != 0 || y % 400 = 0)

/-- Days in a month, as `datetime` validates them. -/
def daysInMonth (y m : Nat) : Nat :=
  if m = 2 then (if isLeapYear y then 29 else 28)
  else if m = 4 || m = 6 || m = 9 || m = 11 then 30
  else 31

/-- `_is_valid_date` of models.py: `strptime(s, "%Y-%m-%d")` succeeds
(4-digit year, 1-2 digit month 1-12, 1-2 digit day valid for the month). -/
def is_valid_date (s : String) : Bool :=
  match splitOnChar '-' s with
  | [y, m, d] =>
    isDigitStr y && y.length = 4 &&
    isDigitStr m && (m.length = 1 || m.length = 2) &&
    isDigitStr d && (d.length = 1 || d.length = 2) &&
    (1 ≤ strToNat m && strToNat m ≤ 12) &&
    (1 ≤ strToNat d && strToNat d ≤ daysInMonth (strToNat y) (strToNat m))
  | _ => false

/-- Character class `[a-zA-Z0-9._%+-]` of the email pattern's local part. -/
def emailLocalChar (c : Char) : Bool :=
  c.isAlphanum || c == '.' || c == '_' || c == '%' || c == '+' || c == '-'

/-- Character class `[a-zA-Z0-9-]`: a domain label character other than the
dot (the dots reappear as the separators of `splitOn`). -/
def emailDomainChar (c : Char) : Bool := c.isAlphanum || c == '-'

/-- `_is_valid_email`: full-string match of
`^[a-zA-Z0-9._%+-]+@[a-zA-Z0-9.-]+\.[a-zA-Z]\x7b2,\x7d$`: one `@`, a
nonempty local part over its class, a nonempty domain over `[a-zA-Z0-9.-]`
ending in a dot followed by at least two letters.  (The CPython quirk that
`$` also matches before one trailing newline is not modelled.) -/
def is_valid_email (s : String) : Bool :=
  match splitOnChar '@' s with
  | [l, dom] =>
    l ≠ "" && l.data.all emailLocalChar &&
    (let parts := splitOnChar '.' dom
     decide (parts.length ≥ 2) &&
     (parts.dropLast.any (fun p => p ≠ "") || decide (parts.length ≥ 3)) &&
     parts.dropLast.all (fun p => p.data.all emailDomainChar) &&
     (let t := parts.getLastD ""
      decide (t.length ≥ 2) && t.data.all Char.isAlpha))
  | _ => false

/-- `_is_valid_phone`: strip non-digits, demand 10 or 11 digits. -/
def is_valid_phone (s : String) : Bool :=
  (s.data.filter Char.isDigit).length = 10 ||
  (s.data.filter Char.isDigit).length = 11

/-- Member dataclass of models.py (17 fields). -/
structure Member where
  member_id : String
  first_name : String
  last_name : String
  email : String
  phone : String
  wix_user_id : Option String
  role : String
  membership_status : String
  payment_status : String
  join_date : Option String
  graduation_year : Option String
  major : Option String
  emergency_contact : Option String
  emergency_phone : Option String
  notes : Option String
  created_at : Option String
  updated_at : Option String
deriving DecidableEq, Repr

/-- `Member._validate`. -/
def Member.validate (m : Member) : Bool :=
  m.member_id ≠ "" &&
  (m.first_name ≠ "" && m.last_name ≠ "") &&
  is_valid_email m.email &&
  is_valid_phone m.phone &&
  (m.role = "member" || m.role = "exec") &&
  (m.membership_status = "active" || m.membership_status = "inactive" ||
   m.membership_status = "suspended") &&
  (m.payment_status = "paid" || m.payment_status = "pending" ||
   m.payment_status = "overdue")

/-- Dataclass construction plus `Member.__post_init__`: validate, default
`created_at` to the current time when falsy, stamp `updated_at`.
Construction of an invalid member raises, modelled as `none`. -/
def Member.construct (now : String) (m : Member) : Option Member :=
  if m.validate then
    some { m with
      created_at := if truthy m.created_at then m.created_at else some now,
      updated_at := some now }
  else none

/-- `Member.to_sheet_row`. -/
def Member.to_sheet_row (m : Member) : List String :=
  [m.member_id, m.first_name, m.last_name, m.email, m.phone,
   optToCell m.wix_user_id, m.role, m.membership_status, m.payment_status,
   optToCell m.join_date, optToCell m.graduation_year, optToCell m.major,
   optToCell m.emergency_contact, optToCell m.emergency_phone,
   optToCell m.notes, optToCell m.created_at, optToCell m.updated_at]

/-- `Member.from_sheet_row`: pad to 17 cells, map cells to fields, then run
the validating constructor. -/
def Member.from_sheet_row (now : String) (row : List String) : Option Member :=
  Member.construct now {
    member_id := cell row 0
    first_name := cell row 1
    last_name := cell row 2
    email := cell row 3
    phone := cell row 4
    wix_user_id := cellToOpt (cell row 5)
    role := pyOr (cell row 6) "member"
    membership_status := pyOr (cell row 7) "active"
    payment_status := pyOr (cell row 8) "pending"
    join_date := cellToOpt (cell row 9)
    graduation_year := cellToOpt (cell row 10)
    major := cellToOpt (cell row 11)
    emergency_contact := cellToOpt (cell row 12)
    emergency_phone := cellToOpt (cell row 13)
    notes := cellToOpt (cell row 14)
    created_at := cellToOpt (cell row 15)
    updated_at := cellToOpt (cell row 16) }

/-- Event dataclass of models.py (14 fields). -/
structure Event where
  event_id : String
  event_name : String
  event_type : String
  event_date : String
  start_time : String
  end_time : String
  location : String
  description : Option String
  is_mandatory : Bool
  max_attendees : Option Int
  created_by : String
  status : String
  created_at : Option String
  updated_at : Option String
deriving DecidableEq, Repr

/-- `Event._validate`. -/
def Event.validate (e : Event) : Bool :=
  e.event_id ≠ "" &&
  e.event_name ≠ "" &&
  (e.event_type = "practice" || e.event_type = "game" ||
   e.event_type = "meeting" || e.event_type = "social") &&
  is_valid_date e.event_date &&
  (is_valid_time e.start_time && is_valid_time e.end_time) &&
  (e.status = "scheduled" || e.status = "cancelled" || e.status = "completed")

/-- Dataclass construction plus `Event.__post_init__`. -/
def Event.construct (now : String) (e : Event) : Option Event :=
  if e.validate then
    some { e with
      created_at := if truthy e.created_at then e.created_at else some now,
      updated_at := some now }
  else none

/-- `Event.to_sheet_row`.  `str(self.max_attendees) if self.max_attendees
else ""` serializes both `None` and `0` as the empty cell. -/
def Event.to_sheet_row (e : Event) : List String :=
  [e.event_id, e.event_name, e.event_type, e.event_date, e.start_time,
   e.end_time, e.location, optToCell e.description,
   (if e.is_mandatory then "true" else "false"),
   maxAttendeesCell e.max_attendees,
   e.created_by, e.status, optToCell e.created_at, optToCell e.updated_at]

/-- `Event.from_sheet_row`. -/
def Event.from_sheet_row (now : String) (row : List String) : Option Event :=
  Event.construct now {
    event_id := cell row 0
    event_name := cell row 1
    event_type := cell row 2
    event_date := cell row 3
    start_time := cell row 4
    end_time := cell row 5
    location := cell row 6
    description := cellToOpt (cell row 7)
    is_mandatory := if cell row 8 = "" then false
                    else strToLower (cell row 8) == "true"
    max_attendees := if isDigitStr (cell row 9)
                     then some (Int.ofNat (strToNat (cell row 9)))
                     else none
    created_by := cell row 10
    status := pyOr (cell row 11) "scheduled"
    created_at := cellToOpt (cell row 12)
    updated_at := cellToOpt (cell row 13) }

/-- AttendanceRecord dataclass of models.py (10 fields). -/
structure AttendanceRecord where
  record_id : String
  event_id : String
  member_id : String
  attendance_status : String
  check_in_time : Option String
  check_out_time : Option String
  notes : Option String
  recorded_by : String
  created_at : Option String
  updated_at : Option String
deriving DecidableEq, Repr

/-- `AttendanceRecord._validate`. -/
def AttendanceRecord.validate (a : AttendanceRecord) : Bool :=
  a.record_id ≠ "" &&
  a.event_id ≠ "" &&
  a.member_id ≠ "" &&
  (a.attendance_status = "present" || a.attendance_status = "absent" ||
   a.attendance_status = "excused" || a.attendance_status = "late") &&
  (!truthy a.check_in_time || is_valid_time (a.check_in_time.getD "")) &&
  (!truthy a.check_out_time || is_valid_time (a.check_out_time.getD ""))

/-- Dataclass construction plus `AttendanceRecord.__post_init__`. -/
def AttendanceRecord.construct (now : String) (a : AttendanceRecord) :
    Option AttendanceRecord :=
  if a.validate then
    some { a with
      created_at := if truthy a.created_at then a.created_at else some now,
      updated_at := some now }
  else none

/-- `AttendanceRecord.duration_minutes`: `None` unless both times are set;
one-day rollover when checkout is before checkin.  (On a record whose time
strings do not parse the Python property would raise; such records cannot be
constructed, so the `none` fallback of the parse match is unreachable on
constructed records.) -/
def AttendanceRecord.duration_minutes (a : AttendanceRecord) : Option Int :=
  if !truthy a.check_in_time || !truthy a.check_out_time then none
  else
    match parseTime (a.check_in_time.getD ""), parseTime (a.check_out_time.getD "") with
    | some ci, some co =>
      some ((if co < ci then (co : Int) + 1440 else (co : Int)) - (ci : Int))
    | _, _ => none

/-- `AttendanceRecord.to_sheet_row`. -/
def AttendanceRecord.to_sheet_row (a : AttendanceRecord) : List String :=
  [a.record_id, a.event_id, a.member_id, a.attendance_status,
   optToCell a.check_in_time, optToCell a.check_out_time,
   optToCell a.notes, a.recorded_by,
   optToCell a.created_at, optToCell a.updated_at]

/-- `AttendanceRecord.from_sheet_row`. -/
def AttendanceRecord.from_sheet_row (now : String) (row : List String) :
    Option AttendanceRecord :=
  AttendanceRecord.construct now {
    record_id := cell row 0
    event_id := cell row 1
    member_id := cell row 2
    attendance_status := cell row 3
    check_in_time := cellToOpt (cell row 4)
    check_out_time := cellToOpt (cell row 5)
    notes := cellToOpt (cell row 6)
    recorded_by := cell row 7
    created_at := cellToOpt (cell row 8)
    updated_at := cellToOpt (cell row 9) }

/-- Shared shape of `get_all_members` / `get_all_events` / `get_all_attendance`:
read the full range, skip a leading header row when the first row's first
cell equals the canonical first header value, parse every remaining row
independently and drop the rows that fail to parse.  When the first row is
the empty list, the header probe `row[0]` raises `IndexError`, the outer
exception handler catches it and the whole read returns `[]`. -/
def readAll {α : Type} (hdr : String) (parse : List String → Option α) :
    List (List String) → List α
  | [] => []
  | r0 :: rest =>
    match r0.head? with
    | none => []
    | some c =>
      if c = hdr then rest.filterMap parse
      else
        match parse r0 with
        | some a => a :: rest.filterMap parse
        | none => rest.filterMap parse

/-- `MembersCRUD.get_all_members`. -/
def get_all_members (now : String) (rows : List (List String)) : List Member :=
  readAll "Member ID" (Member.from_sheet_row now) rows

/-- `MembersCRUD.get_member_by_id`: linear scan of the parsed members. -/
def get_member_by_id (now : String) (rows : List (List String))
    (mid : String) : Option Member :=
  (get_all_members now rows).find? (fun m => m.member_id == mid)

/-- `MembersCRUD.create_member`: duplicate id check by full read-and-scan,
then append.  The backing store of the model always applies the append and
reports a positive updated-row count, so the append branch returns `true`. -/
def create_member (now : String) (rows : List (List String)) (m : Member) :
    Bool × List (List String) :=
  if (get_member_by_id now rows m.member_id).isSome then (false, rows)
  else (true, rows ++ [m.to_sheet_row])

/-- `EventsCRUD.get_all_events`. -/
def get_all_events (now : String) (rows : List (List String)) : List Event :=
  readAll "Event ID" (Event.from_sheet_row now) rows

/-- `EventsCRUD.get_event_by_id`. -/
def get_event_by_id (now : String) (rows : List (List String))
    (eid : String) : Option Event :=
  (get_all_events now rows).find? (fun e => e.event_id == eid)

/-- `EventsCRUD.get_events_by_date`. -/
def get_events_by_date (now : String) (rows : List (List String))
    (d : String) : List Event :=
  (get_all_events now rows).filter (fun e => e.event_date == d)

/-- Loop body of `EventsCRUD._check_event_conflict`: skip cancelled events,
parse both windows with `strptime("%H:%M")` and report the first overlap
(`new_start < existing_end and new_end > existing_start`).  A `strptime`
failure raises out of the loop and the enclosing handler returns `False`
(the check degrades open), which is the final match arm. -/
def check_conflict_loop (newE : Event) : List Event → Bool
  | [] => false
  | ev :: rest =>
    if ev.status == "cancelled" then check_conflict_loop newE rest
    else
      match parseTime newE.start_time, parseTime newE.end_time,
            parseTime ev.start_time, parseTime ev.end_time with
      | some ns, some ne, some es, some ee =>
        if ns < ee && ne > es then true else check_conflict_loop newE rest
      | _, _, _, _ => false

/-- `EventsCRUD._check_event_conflict`.  `readFail` models the same-day scan
(`get_events_by_date`, a remote read) failing: `get_all_events` absorbs the
error and yields `[]`, so the loop sees no events and no conflict. -/
def check_event_conflict (now : String) (readFail : Bool)
    (rows : List (List String)) (e : Event) : Bool :=
  check_conflict_loop e
    (if readFail then [] else get_events_by_date now rows e.event_date)

/-- `EventsCRUD.create_event`: duplicate id check, then conflict check, then
append. -/
def create_event (now : String) (readFail : Bool)
    (rows : List (List String)) (e : Event) : Bool × List (List String) :=
  if (get_event_by_id now rows e.event_id).isSome then (false, rows)
  else if check_event_conflict now readFail rows e then (false, rows)
  else (true, rows ++ [e.to_sheet_row])

/-- `AttendanceCRUD.get_all_attendance`. -/
def get_all_attendance (now : String) (rows : List (List String)) :
    List AttendanceRecord :=
  readAll "Record ID" (AttendanceRecord.from_sheet_row now) rows

/-- `AttendanceCRUD.get_attendance_record`: first parsed record matching the
(event_id, member_id) pair. -/
def get_attendance_record (now : String) (rows : List (List String))
    (eid mid : String) : Option AttendanceRecord :=
  (get_all_attendance now rows).find?
    (fun r => r.event_id == eid && r.member_id == mid)

/-- `AttendanceCRUD.get_attendance_by_event`. -/
def get_attendance_by_event (now : String) (rows : List (List String))
    (eid : String) : List AttendanceRecord :=
  (get_all_attendance now rows).filter (fun r => r.event_id == eid)

/-- Scan of the identifier column shared by `_find_member_row` /
`_find_event_row` / `_find_attendance_row`: 1-indexed position of the first
row whose first cell equals the identifier (`if row and len(row) > 0 and
row[0] == record_id`). -/
def findRowAux (rid : String) : List (List String) → Nat → Option Nat
  | [], _ => none
  | r :: rest, i =>
    match r.head? with
    | some c => if c == rid then some (i + 1) else findRowAux rid rest (i + 1)
    | none => findRowAux rid rest (i + 1)

/-- `AttendanceCRUD._find_attendance_row`. -/
def find_attendance_row (rows : List (List String)) (rid : String) :
    Option Nat :=
  findRowAux rid rows 0

/-- `AttendanceCRUD.update_attendance`: locate the row by the record's own
`record_id`, stamp `updated_at`, rewrite the whole row in place.  The model's
store applies the rewrite and reports a positive updated-row count. -/
def update_attendance (now : String) (rows : List (List String))
    (a : AttendanceRecord) : Bool × List (List String) :=
  match find_attendance_row rows a.record_id with
  | none => (false, rows)
  | some n =>
    (true, rows.set (n - 1) ({ a with updated_at := some now }).to_sheet_row)

/-- `AttendanceCRUD.record_attendance`: when a record for the (event_id,
member_id) pair already exists, delegate to `update_attendance` on the
incoming record; otherwise append the new row. -/
def record_attendance (now : String) (rows : List (List String))
    (a : AttendanceRecord) : Bool × List (List String) :=
  if (get_attendance_record now rows a.event_id a.member_id).isSome then
    update_attendance now rows a
  else (true, rows ++ [a.to_sheet_row])

/-- Rounding half to even at the integers, as Python `round` does.
`r2 = 2 * (q - floor q) * den` is compared against `den`, which decides
whether the fractional part is below, above or exactly one half. -/
def roundHalfEven (q : ℚ) : ℤ :=
  let f := q.floor
  let r2 : ℤ := q.num * 2 - f * 2 * (q.den : ℤ)
  if r2 < (q.den : ℤ) then f
  else if (q.den : ℤ) < r2 then f + 1
  else if f % 2 = 0 then f else f + 1

/-- Python `round(x, 1)`: scale by ten, round half to even, scale back. -/
def pyRound1 (q : ℚ) : ℚ :=
  Rat.divInt (roundHalfEven (Rat.divInt (q.num * 10) (q.den : ℤ))) 10

/-- The dict returned by `get_event_attendance_summary`. -/
structure AttendanceSummary where
  total_records : Nat
  present : Nat
  absent : Nat
  excused : Nat
  late : Nat
  attendance_rate : ℚ
  average_duration : ℚ
deriving DecidableEq, Repr

/-- Python truthiness of `r.duration_minutes` (`None` and `0` are falsy). -/
def truthyDuration (o : Option Int) : Bool :=
  match o with
  | some k => k != 0
  | none => false

/-- Body of `AttendanceCRUD.get_event_attendance_summary` over the event's
records: counts by status; when records exist, the attendance rate is
`(present + late) / total * 100` rounded to one decimal and the average
duration is taken over present/late records with a truthy duration. -/
def summarize (records : List AttendanceRecord) : AttendanceSummary :=
  let total := records.length
  let p := (records.filter (fun r => r.attendance_status == "present")).length
  let ab := (records.filter (fun r => r.attendance_status == "absent")).length
  let ex := (records.filter (fun r => r.attendance_status == "excused")).length
  let lt := (records.filter (fun r => r.attendance_status == "late")).length
  let durations :=
    (records.filter (fun r =>
      (r.attendance_status == "present" || r.attendance_status == "late") &&
      truthyDuration r.duration_minutes)).map
        (fun r => r.duration_minutes.getD 0)
  { total_records := total
    present := p
    absent := ab
    excused := ex
    late := lt
    attendance_rate :=
      if 0 < total then
        pyRound1 (Rat.divInt (((p + lt : Nat) : ℤ) * 100) ((total : Nat) : ℤ))
      else 0
    average_duration :=
      if 0 < total ∧ durations ≠ [] then
        pyRound1 (Rat.divInt (durations.foldl (· + ·) 0)
          ((durations.length : Nat) : ℤ))
      else 0 }

/-- `AttendanceCRUD.get_event_attendance_summary`. -/
def get_event_attendance_summary (now : String) (rows : List (List String))
    (eid : String) : AttendanceSummary :=
  summarize (get_attendance_by_event now rows eid)

/-- Errors raised by `request.execute()`: an `HttpError` carrying a response
status, or any other exception. -/
inductive SheetsApiError where
  | http (status : Nat)
  | otherExc
deriving DecidableEq, Repr

/-- Outcome of one `request.execute()` call, and also the overall outcome of
`_execute_with_retry` (a returned response or a propagated exception). -/
inductive Outcome (α : Type) where
  | ok (resp : α)
  | err (e : SheetsApiError)
deriving DecidableEq, Repr


/-- What one run of `_execute_with_retry` did: its result, the sleeps it
performed (in seconds, in order), and how many times it executed the
request. -/
structure RetryResult (α : Type) where
  result : Outcome α
  sleeps : List ℚ
  execs : Nat
deriving DecidableEq, Repr

/-- Body of `GoogleSheetsManager._execute_with_retry`, indexed by the current
attempt number and the number of attempts still allowed after it (so
`remaining = 0` means `attempt == max_retries`, where any caught error is
re-raised before the status dispatch).  On HTTP 429 the loop sleeps
`delay * 2 ** attempt` and retries; on HTTP 500/502/503/504 likewise; on any
other HTTP status it re-raises at once; on a non-HTTP exception it sleeps
`delay` (no backoff) and retries. -/
def executeWithRetryAux {α : Type} (f : Nat → Outcome α) (delay : ℚ) :
    Nat → Nat → RetryResult α
  | attempt, 0 =>
    match f attempt with
    | .ok r => ⟨.ok r, [], 1⟩
    | .err e => ⟨.err e, [], 1⟩
  | attempt, remaining + 1 =>
    match f attempt with
    | .ok r => ⟨.ok r, [], 1⟩
    | .err (.http s) =>
      if s = 429 then
        let rest := executeWithRetryAux f delay (attempt + 1) remaining
        ⟨rest.result, delay * 2 ^ attempt :: rest.sleeps, rest.execs + 1⟩
      else if s = 500 ∨ s = 502 ∨ s = 503 ∨ s = 504 then
        let rest := executeWithRetryAux f delay (attempt + 1) remaining
        ⟨rest.result, delay * 2 ^ attempt :: rest.sleeps, rest.execs + 1⟩
      else ⟨.err (.http s), [], 1⟩
    | .err .otherExc =>
      let rest := executeWithRetryAux f delay (attempt + 1) remaining
      ⟨rest.result, delay :: rest.sleeps, rest.execs + 1⟩

/-- `GoogleSheetsManager._execute_with_retry` (defaults in the source:
`max_retries = 3`, `delay = 1.0`).  `f i` is the outcome of executing the
request on attempt `i`. -/
def execute_with_retry {α : Type} (f : Nat → Outcome α) (max_retries : Nat)
    (delay : ℚ) : RetryResult α :=
  executeWithRetryAux f delay 0 max_retries

/-- `True` unless the sheet's first row is the empty row (which the Python
header probe `values[0][0]` cannot index into). -/
def firstRowOk (rows : List (List String)) : Bool :=
  match rows with
  | [] => true
  | r :: _ => r ≠ []

/- Concrete fixtures used by counterexamples and witnesses. -/

/-- A stored attendance row: record `RA` for member `M1` at event `E1`. -/
def rowRA : List String :=
  ["RA", "E1", "M1", "present", "", "", "", "sys", "T0", "T0"]

/-- A stored attendance row: record `RB` for member `M2` at event `E2`. -/
def rowRB : List String :=
  ["RB", "E2", "M2", "present", "", "", "", "sys", "T0", "T0"]

/-- An incoming attendance record for the pair (E1, M1) whose `record_id`
happens to equal the stored record `RB` of the pair (E2, M2).  It passes
`AttendanceRecord._validate` (the record id is never checked against the
event/member ids). -/
def attClash : AttendanceRecord :=
  { record_id := "RB", event_id := "E1", member_id := "M1",
    attendance_status := "late", check_in_time := none,
    check_out_time := none, notes := none, recorded_by := "sys",
    created_at := some "T0", updated_at := some "T0" }

/-- An incoming attendance record for the existing pair (E1, M1) carrying a
freshly generated `record_id` (a later `generate_record_id` timestamp), as
`record_attendance` receives in the ordinary duplicate case. -/
def attFresh : AttendanceRecord :=
  { record_id := "ATT_E1_M1_20240321183000", event_id := "E1",
    member_id := "M1", attendance_status := "late", check_in_time := none,
    check_out_time := none, notes := none, recorded_by := "sys",
    created_at := some "T0", updated_at := some "T0" }

/-- A parsable member row (id `MX`). -/
def rowMX : List String :=
  ["MX", "Ada", "Lovelace", "ada@berkeley.edu", "5551234567", "", "member",
   "active", "pending", "", "", "", "", "", "", "T0", "T0"]

/-- A valid member object with id `MY`. -/
def memberMY : Member :=
  { member_id := "MY", first_name := "Grace", last_name := "Hopper",
    email := "grace@berkeley.edu", phone := "555-123-4567",
    wix_user_id := none, role := "member", membership_status := "active",
    payment_status := "pending", join_date := none, graduation_year := none,
    major := none, emergency_contact := none, emergency_phone := none,
    notes := none, created_at := some "2024-01-01T00:00:00",
    updated_at := some "2024-01-02T00:00:00" }

/-- A stored event 18:00-20:00 on 2024-03-20 (id `EV18`). -/
def eventEV18 : Event :=
  { event_id := "EV18", event_name := "Practice", event_type := "practice",
    event_date := "2024-03-20", start_time := "18:00", end_time := "20:00",
    location := "Memorial Stadium", description := none,
    is_mandatory := true, max_attendees := none, created_by := "MBR_001",
    status := "scheduled", created_at := some "T0", updated_at := some "T0" }

/-- The events sheet holding only `eventEV18`. -/
def rowsEV : List (List String) := [eventEV18.to_sheet_row]

/-- A new event 19:00-21:00 on 2024-03-20, overlapping `eventEV18`. -/
def eventEV19 : Event :=
  { eventEV18 with event_id := "EV19", start_time := "19:00",
                   end_time := "21:00" }

/-- A new event 20:00-21:00 on 2024-03-20, merely adjacent to `eventEV18`. -/
def eventEV20 : Event :=
  { eventEV18 with event_id := "EV20", start_time := "20:00",
                   end_time := "21:00" }

/-- An attendance sheet for event `E1` holding the four-record multiset
\x7bpresent, present, absent, late\x7d of the spec's summary test. -/
def rowsSummary : List (List String) :=
  [["R1", "E1", "M1", "present", "", "", "", "sys", "T0", "T0"],
   ["R2", "E1", "M2", "present", "", "", "", "sys", "T0", "T0"],
   ["R3", "E1", "M3", "absent", "", "", "", "sys", "T0", "T0"],
   ["R4", "E1", "M4", "late", "", "", "", "sys", "T0", "T0"]]

/-- A request mock that fails twice with HTTP 429 and then succeeds. -/
def reqRateLimited : Nat → Outcome String :=
  fun i => if i < 2 then .err (.http 429) else .ok "resp"

/-- A request mock that always returns an HTTP 403 permission error. -/
def reqForbidden : Nat → Outcome String := fun _ => .err (.http 403)

/-- A request mock that raises a non-HTTP exception once and then succeeds. -/
def reqFlaky : Nat → Outcome String :=
  fun i => if i = 0 then .err .otherExc else .ok "resp"

/-- A valid event object whose `max_attendees` is the integer `0`. -/
def eventMaxZero : Event :=
  { eventEV18 with event_id := "EV0", max_attendees := some 0 }

/-- A valid event object used by the round-trip witness. -/
def eventRT : Event :=
  { event_id := "EVT_20240315180000", event_name := "Weekly Practice",
    event_type := "practice", event_date := "2024-03-15",
    start_time := "18:00", end_time := "20:00",
    location := "Memorial Stadium", description := some "Drills",
    is_mandatory := true, max_attendees := some 25, created_by := "MBR_001",
    status := "scheduled", created_at := some "2024-03-01T00:00:00",
    updated_at := some "2024-03-02T00:00:00" }

/-- A valid attendance record used by the round-trip witness. -/
def attRT : AttendanceRecord :=
  { record_id := "ATT_E1_M1_20240315180000", event_id := "E1",
    member_id := "M1", attendance_status := "present",
    check_in_time := some "18:05", check_out_time := some "19:55",
    notes := some "ok", recorded_by := "MBR_002",
    created_at := some "2024-03-15T18:05:00",
    updated_at := some "2024-03-15T19:55:00" }

/-- A member row whose role, membership-status and payment-status cells are
all empty. -/
def rowBlankEnums : List String :=
  ["MZ", "Alan", "Turing", "alan@berkeley.edu", "5559876543", "", "", "", "",
   "", "", "", "", "", "", "T0", "T0"]

/-- An event row whose status cell is empty. -/
def rowBlankStatus : List String :=
  ["EZ", "Scrimmage", "game", "2024-03-22", "10:00", "12:00", "Field", "",
   "false", "", "MBR_001", "", "T0", "T0"]

/-- The member that `rowBlankEnums` parses to when read at time `T1`. -/
def memberBlankParsed : Member :=
  { member_id := "MZ", first_name := "Alan", last_name := "Turing",
    email := "alan@berkeley.edu", phone := "5559876543", wix_user_id := none,
    role := "member", membership_status := "active",
    payment_status := "pending", join_date := none, graduation_year := none,
    major := none, emergency_contact := none, emergency_phone := none,
    notes := none, created_at := some "T0", updated_at := some "T1" }

/-- The event that `rowBlankStatus` parses to when read at time `T1`. -/
def eventBlankParsed : Event :=
  { event_id := "EZ", event_name := "Scrimmage", event_type := "game",
    event_date := "2024-03-22", start_time := "10:00", end_time := "12:00",
    location := "Field", description := none, is_mandatory := false,
    max_attendees := none, created_by := "MBR_001", status := "scheduled",
    created_at := some "T0", updated_at := some "T1" }

/- Helper lemmas -/

theorem cellToOpt_optToCell (o : Option String) (h : o ≠ some "") :
    cellToOpt (optToCell o) = o := by
  cases o with
  | none => rfl
  | some s =>
    by_cases hs : s = ""
    · exact absurd (by rw [hs]) h
    · simp [cellToOpt, optToCell, hs]

theorem pyOr_of_ne (s d : String) (h : s ≠ "") : pyOr s d = s := by
  simp [pyOr, h]

theorem digitChar_toNat (d : Nat) (h : d < 10) :
    (Nat.digitChar d).toNat - 48 = d := by
  interval_cases d <;> rfl

theorem digitChar_isDigit (d : Nat) (h : d < 10) :
    (Nat.digitChar d).isDigit = true := by
  interval_cases d <;> rfl

theorem natReprAux_spec (fuel : Nat) :
    ∀ n, n < fuel →
      strToNatList (natReprAux fuel n) = n ∧ natReprAux fuel n ≠ [] ∧
      (natReprAux fuel n).all Char.isDigit = true := by
  induction fuel with
  | zero => intro n h; omega
  | succ fuel ih =>
    intro n h
    by_cases h10 : n < 10
    · refine ⟨?_, ?_, ?_⟩ <;> simp only [natReprAux, if_pos h10]
      · interval_cases n <;> rfl
      · simp
      · simp [digitChar_isDigit n h10]
    · have h0 : 0 < n := by omega
      have hdiv : n / 10 < n := Nat.div_lt_self h0 (by omega)
      obtain ⟨ih1, ih2, ih3⟩ := ih (n / 10) (by omega)
      refine ⟨?_, ?_, ?_⟩ <;> simp only [natReprAux, if_neg h10]
      · have hfold := List.foldl_append
          (fun (a : Nat) (c : Char) => a * 10 + (c.toNat - 48)) 0
          (natReprAux fuel (n / 10)) [Nat.digitChar (n % 10)]
        simp only [strToNatList] at ih1 ⊢
        rw [hfold, ih1, List.foldl_cons, List.foldl_nil,
            digitChar_toNat (n % 10) (Nat.mod_lt n (by omega))]
        omega
      · simp
      · simp only [List.all_append, Bool.and_eq_true]
        exact ⟨ih3, by simp [digitChar_isDigit (n % 10) (Nat.mod_lt n (by omega))]⟩

theorem strToNat_natRepr (n : Nat) : strToNat (natRepr n) = n :=
  (natReprAux_spec (n + 1) n (by omega)).1

theorem natRepr_ne_empty (n : Nat) : natRepr n ≠ "" := by
  have := (natReprAux_spec (n + 1) n (by omega)).2.1
  intro h
  exact this (by simpa [natRepr, String.ext_iff] using h)

theorem isDigitStr_natRepr (n : Nat) : isDigitStr (natRepr n) = true := by
  have h2 := (natReprAux_spec (n + 1) n (by omega)).2
  simp only [isDigitStr, Bool.and_eq_true, decide_eq_true_eq]
  exact ⟨natRepr_ne_empty n, h2.2⟩

theorem intRepr_pos (k : Int) (h : 0 < k) :
    isDigitStr (intRepr k) = true ∧ Int.ofNat (strToNat (intRepr k)) = k := by
  have hk : ¬k < 0 := by omega
  unfold intRepr
  rw [if_neg hk]
  refine ⟨isDigitStr_natRepr _, ?_⟩
  rw [strToNat_natRepr]
  simpa using Int.toNat_of_nonneg (le_of_lt h)

theorem readAll_cons {α : Type} (hdr : String) (p : List String → Option α)
    (c : String) (cs : List String) (rest : List (List String)) :
    readAll hdr p ((c :: cs) :: rest) =
      (if c = hdr then [] else (p (c :: cs)).toList) ++ rest.filterMap p := by
  by_cases hc : c = hdr
  · simp [readAll, hc]
  · simp only [readAll, List.head?_cons, if_neg hc]
    cases hp : p (c :: cs) <;> simp [hp]

theorem readAll_nil_first {α : Type} (hdr : String)
    (p : List String → Option α) (rest : List (List String)) :
    readAll hdr p ([] :: rest) = [] := by
  simp [readAll]

theorem readAll_append {α : Type} (hdr : String) (p : List String → Option α)
    (rows : List (List String)) (r : List String)
    (h1 : firstRowOk rows = true)
    (h2 : rows = [] → r.head?.getD "" ≠ hdr ∧ r ≠ []) :
    readAll hdr p (rows ++ [r]) = readAll hdr p rows ++ (p r).toList := by
  cases rows with
  | nil =>
    obtain ⟨hh, hne⟩ := h2 rfl
    cases r with
    | nil => exact absurd rfl hne
    | cons c cs =>
      rw [List.nil_append, readAll_cons]
      simp only [List.head?_cons, Option.getD_some] at hh
      simp [readAll, if_neg hh]
  | cons r0 rest =>
    cases r0 with
    | nil => simp [firstRowOk] at h1
    | cons c cs =>
      rw [List.cons_append, readAll_cons, readAll_cons, List.filterMap_append]
      cases hp : p r <;> simp [hp]

theorem mem_readAll {α : Type} {hdr : String} {p : List String → Option α}
    {rows : List (List String)} {a : α} (h : a ∈ readAll hdr p rows) :
    ∃ r, p r = some a := by
  cases rows with
  | nil => simp [readAll] at h
  | cons r0 rest =>
    cases r0 with
    | nil => rw [readAll_nil_first] at h; simp at h
    | cons c cs =>
      rw [readAll_cons] at h
      rcases List.mem_append.mp h with h | h
      · split at h
        · simp at h
        · cases hp : p (c :: cs) with
          | none => rw [hp] at h; simp at h
          | some b =>
            rw [hp] at h
            simp only [Option.toList_some, List.mem_singleton] at h
            exact ⟨c :: cs, by rw [hp, h]⟩
      · obtain ⟨r, _, hr⟩ := List.mem_filterMap.mp h
        exact ⟨r, hr⟩

theorem member_validate_construct {now : String} {m m' : Member}
    (h : Member.construct now m = some m') : m'.validate = true := by
  unfold Member.construct at h
  split at h
  · rename_i hv
    injection h with h
    subst h
    exact hv
  · exact absurd h (by simp)

theorem event_validate_construct {now : String} {e e' : Event}
    (h : Event.construct now e = some e') : e'.validate = true := by
  unfold Event.construct at h
  split at h
  · rename_i hv
    injection h with h
    subst h
    exact hv
  · exact absurd h (by simp)

theorem attendance_validate_construct {now : String}
    {a a' : AttendanceRecord}
    (h : AttendanceRecord.construct now a = some a') : a'.validate = true := by
  unfold AttendanceRecord.construct at h
  split at h
  · rename_i hv
    injection h with h
    subst h
    exact hv
  · exact absurd h (by simp)

theorem Member.construct_enums {now : String} {x m : Member}
    (h : Member.construct now x = some m) :
    m.role = x.role ∧ m.membership_status = x.membership_status ∧
      m.payment_status = x.payment_status := by
  unfold Member.construct at h
  split at h
  · injection h with h
    subst h
    exact ⟨rfl, rfl, rfl⟩
  · exact absurd h (by simp)

theorem Event.construct_status {now : String} {x e : Event}
    (h : Event.construct now x = some e) : e.status = x.status := by
  unfold Event.construct at h
  split at h
  · injection h with h
    subst h
    rfl
  · exact absurd h (by simp)

theorem boolCellRT (b : Bool) :
    (if (if b then "true" else "false") = "" then false
     else strToLower (if b then "true" else "false") == "true") = b := by
  cases b <;> decide

theorem maxCellRT (o : Option Int)
    (h : o = none ∨ ∃ k : Int, 0 < k ∧ o = some k) :
    (if isDigitStr (maxAttendeesCell o)
     then some (Int.ofNat (strToNat (maxAttendeesCell o)))
     else none) = o := by
  rcases h with h | ⟨k, hk, h⟩ <;> subst h
  · decide
  · have hne : ¬k = 0 := by omega
    obtain ⟨hd, hv⟩ := intRepr_pos k hk
    simp only [maxAttendeesCell, if_neg hne, hd, if_true, hv]

set_option maxHeartbeats 1000000 in
theorem round_trip_member (u : String) (m : Member) (hv : m.validate = true)
    (hc : ∃ c, m.created_at = some c ∧ c ≠ "")
    (hu : m.updated_at = some u) (hu' : u ≠ "")
    (h1 : m.wix_user_id ≠ some "") (h2 : m.join_date ≠ some "")
    (h3 : m.graduation_year ≠ some "") (h4 : m.major ≠ some "")
    (h5 : m.emergency_contact ≠ some "") (h6 : m.emergency_phone ≠ some "")
    (h7 : m.notes ≠ some "") :
    Member.from_sheet_row u m.to_sheet_row = some m := by
  obtain ⟨c, hc1, hc2⟩ := hc
  have hvp := hv
  simp only [Member.validate, Bool.and_eq_true, Bool.or_eq_true,
    decide_eq_true_eq] at hvp
  have hrole : m.role = "member" ∨ m.role = "exec" := by tauto
  have hms : m.membership_status = "active" ∨ m.membership_status = "inactive" ∨
      m.membership_status = "suspended" := by tauto
  have hps : m.payment_status = "paid" ∨ m.payment_status = "pending" ∨
      m.payment_status = "overdue" := by tauto
  have hrole' : m.role ≠ "" := by rcases hrole with h | h <;> simp [h]
  have hms' : m.membership_status ≠ "" := by
    rcases hms with h | h | h <;> simp [h]
  have hps' : m.payment_status ≠ "" := by
    rcases hps with h | h | h <;> simp [h]
  have hcne : m.created_at ≠ some "" := by simp [hc1, hc2]
  have hune : m.updated_at ≠ some "" := by rw [hu]; simp [hu']
  have hstep : Member.from_sheet_row u m.to_sheet_row =
      Member.construct u
        { member_id := m.member_id, first_name := m.first_name,
          last_name := m.last_name, email := m.email, phone := m.phone,
          wix_user_id := cellToOpt (optToCell m.wix_user_id),
          role := pyOr m.role "member",
          membership_status := pyOr m.membership_status "active",
          payment_status := pyOr m.payment_status "pending",
          join_date := cellToOpt (optToCell m.join_date),
          graduation_year := cellToOpt (optToCell m.graduation_year),
          major := cellToOpt (optToCell m.major),
          emergency_contact := cellToOpt (optToCell m.emergency_contact),
          emergency_phone := cellToOpt (optToCell m.emergency_phone),
          notes := cellToOpt (optToCell m.notes),
          created_at := cellToOpt (optToCell m.created_at),
          updated_at := cellToOpt (optToCell m.updated_at) } := rfl
  rw [hstep, cellToOpt_optToCell _ h1, cellToOpt_optToCell _ h2,
      cellToOpt_optToCell _ h3, cellToOpt_optToCell _ h4,
      cellToOpt_optToCell _ h5, cellToOpt_optToCell _ h6,
      cellToOpt_optToCell _ h7, cellToOpt_optToCell _ hcne,
      cellToOpt_optToCell _ hune,
      pyOr_of_ne _ _ hrole', pyOr_of_ne _ _ hms', pyOr_of_ne _ _ hps']
  show Member.construct u m = some m
  unfold Member.construct
  rw [if_pos hv, hc1]
  simp only [truthy, Option.getD_some, hc2, bne_iff_ne, ne_eq,
    not_false_iff, if_pos]
  rw [← hc1, ← hu]

set_option maxHeartbeats 1000000 in
theorem round_trip_event (u : String) (e : Event) (hv : e.validate = true)
    (hc : ∃ c, e.created_at = some c ∧ c ≠ "")
    (hu : e.updated_at = some u) (hu' : u ≠ "")
    (h1 : e.description ≠ some "")
    (h2 : e.max_attendees = none ∨ ∃ k : Int, 0 < k ∧ e.max_attendees = some k) :
    Event.from_sheet_row u e.to_sheet_row = some e := by
  obtain ⟨c, hc1, hc2⟩ := hc
  have hvp := hv
  simp only [Event.validate, Bool.and_eq_true, Bool.or_eq_true,
    decide_eq_true_eq] at hvp
  have hst : e.status = "scheduled" ∨ e.status = "cancelled" ∨
      e.status = "completed" := by tauto
  have hst' : e.status ≠ "" := by rcases hst with h | h | h <;> simp [h]
  have hcne : e.created_at ≠ some "" := by simp [hc1, hc2]
  have hune : e.updated_at ≠ some "" := by rw [hu]; simp [hu']
  have hstep : Event.from_sheet_row u e.to_sheet_row =
      Event.construct u
        { event_id := e.event_id, event_name := e.event_name,
          event_type := e.event_type, event_date := e.event_date,
          start_time := e.start_time, end_time := e.end_time,
          location := e.location,
          description := cellToOpt (optToCell e.description),
          is_mandatory :=
            (if (if e.is_mandatory then "true" else "false") = "" then false
             else strToLower (if e.is_mandatory then "true" else "false") ==
               "true"),
          max_attendees :=
            (if isDigitStr (maxAttendeesCell e.max_attendees)
             then some (Int.ofNat (strToNat (maxAttendeesCell e.max_attendees)))
             else none),
          created_by := e.created_by,
          status := pyOr e.status "scheduled",
          created_at := cellToOpt (optToCell e.created_at),
          updated_at := cellToOpt (optToCell e.updated_at) } := rfl
  rw [hstep, cellToOpt_optToCell _ h1, cellToOpt_optToCell _ hcne,
      cellToOpt_optToCell _ hune, pyOr_of_ne _ _ hst',
      boolCellRT e.is_mandatory, maxCellRT e.max_attendees h2]
  show Event.construct u e = some e
  unfold Event.construct
  rw [if_pos hv, hc1]
  simp only [truthy, Option.getD_some, hc2, bne_iff_ne, ne_eq,
    not_false_iff, if_pos]
  rw [← hc1, ← hu]

set_option maxHeartbeats 1000000 in
theorem round_trip_attendance (u : String) (a : AttendanceRecord)
    (hv : a.validate = true)
    (hc : ∃ c, a.created_at = some c ∧ c ≠ "")
    (hu : a.updated_at = some u) (hu' : u ≠ "")
    (h1 : a.check_in_time ≠ some "") (h2 : a.check_out_time ≠ some "")
    (h3 : a.notes ≠ some "") :
    AttendanceRecord.from_sheet_row u a.to_sheet_row = some a := by
  obtain ⟨c, hc1, hc2⟩ := hc
  have hcne : a.created_at ≠ some "" := by simp [hc1, hc2]
  have hune : a.updated_at ≠ some "" := by rw [hu]; simp [hu']
  have hstep : AttendanceRecord.from_sheet_row u a.to_sheet_row =
      AttendanceRecord.construct u
        { record_id := a.record_id, event_id := a.event_id,
          member_id := a.member_id,
          attendance_status := a.attendance_status,
          check_in_time := cellToOpt (optToCell a.check_in_time),
          check_out_time := cellToOpt (optToCell a.check_out_time),
          notes := cellToOpt (optToCell a.notes),
          recorded_by := a.recorded_by,
          created_at := cellToOpt (optToCell a.created_at),
          updated_at := cellToOpt (optToCell a.updated_at) } := rfl
  rw [hstep, cellToOpt_optToCell _ h1, cellToOpt_optToCell _ h2,
      cellToOpt_optToCell _ h3, cellToOpt_optToCell _ hcne,
      cellToOpt_optToCell _ hune]
  show AttendanceRecord.construct u a = some a
  unfold AttendanceRecord.construct
  rw [if_pos hv, hc1]
  simp only [truthy, Option.getD_some, hc2, bne_iff_ne, ne_eq,
    not_false_iff, if_pos]
  rw [← hc1, ← hu]

/-- C2: for every Member, Event and AttendanceRecord constructed from valid
field inputs (validation passes; each optional string field is absent or
nonempty; the optional max-attendee count is absent or positive; the
timestamp strings are nonempty), parsing the serialized row reproduces the
entity field by field, given identical timestamp fields: `created_at` is
carried through the row, and the row is parsed at the same wall-clock
instant `u` that stamped the entity's `updated_at`. -/
theorem c2_round_trip :
    (∀ (u : String) (m : Member), m.validate = true →
      (∃ c, m.created_at = some c ∧ c ≠ "") →
      m.updated_at = some u → u ≠ "" →
      m.wix_user_id ≠ some "" → m.join_date ≠ some "" →
      m.graduation_year ≠ some "" → m.major ≠ some "" →
      m.emergency_contact ≠ some "" → m.emergency_phone ≠ some "" →
      m.notes ≠ some "" →
      Member.from_sheet_row u m.to_sheet_row = some m) ∧
    (∀ (u : String) (e : Event), e.validate = true →
      (∃ c, e.created_at = some c ∧ c ≠ "") →
      e.updated_at = some u → u ≠ "" →
      e.description ≠ some "" →
      (e.max_attendees = none ∨ ∃ k : Int, 0 < k ∧ e.max_attendees = some k) →
      Event.from_sheet_row u e.to_sheet_row = some e) ∧
    (∀ (u : String) (a : AttendanceRecord), a.validate = true →
      (∃ c, a.created_at = some c ∧ c ≠ "") →
      a.updated_at = some u → u ≠ "" →
      a.check_in_time ≠ some "" → a.check_out_time ≠ some "" →
      a.notes ≠ some "" →
      AttendanceRecord.from_sheet_row u a.to_sheet_row = some a) :=
  ⟨fun u m hv hc hu hu' h1 h2 h3 h4 h5 h6 h7 =>
      round_trip_member u m hv hc hu hu' h1 h2 h3 h4 h5 h6 h7,
   fun u e hv hc hu hu' h1 h2 => round_trip_event u e hv hc hu hu' h1 h2,
   fun u a hv hc hu hu' h1 h2 h3 =>
      round_trip_attendance u a hv hc hu hu' h1 h2 h3⟩

/-- C2 witness: the round-trip law applied to a concrete valid member, event
and attendance record. -/
theorem c2_witness :
    Member.from_sheet_row "2024-01-02T00:00:00" memberMY.to_sheet_row =
      some memberMY ∧
    Event.from_sheet_row "2024-03-02T00:00:00" eventRT.to_sheet_row =
      some eventRT ∧
    AttendanceRecord.from_sheet_row "2024-03-15T19:55:00" attRT.to_sheet_row =
      some attRT :=
  ⟨c2_round_trip.1 "2024-01-02T00:00:00" memberMY (by decide)
      ⟨"2024-01-01T00:00:00", rfl, by decide⟩ rfl (by decide) (by decide)
      (by decide) (by decide) (by decide) (by decide) (by decide) (by decide),
   c2_round_trip.2.1 "2024-03-02T00:00:00" eventRT (by decide)
      ⟨"2024-03-01T00:00:00", rfl, by decide⟩ rfl (by decide) (by decide)
      (Or.inr ⟨25, by decide, rfl⟩),
   c2_round_trip.2.2 "2024-03-15T19:55:00" attRT (by decide)
      ⟨"2024-03-15T18:05:00", rfl, by decide⟩ rfl (by decide) (by decide)
      (by decide) (by decide)⟩

/-- C1 (amended): when `record_attendance` is called with a record whose
(event_id, member_id) pair already has a non-cleared record, it never
appends a row: it delegates to `update_attendance`, which locates a row by
the incoming record's own `record_id`; if no row carries that record id the
call fails with `False` and leaves the store unchanged, and otherwise it
rewrites, in place, the row at the position the record-id scan found —
which is the pair's existing row only when the incoming `record_id` equals
that row's record id. -/
theorem c1_pair_update :
    ∀ (now : String) (rows : List (List String)) (a : AttendanceRecord),
      (get_attendance_record now rows a.event_id a.member_id).isSome = true →
      ((record_attendance now rows a).2.length = rows.length ∧
       (find_attendance_row rows a.record_id = none →
         record_attendance now rows a = (false, rows)) ∧
       (∀ n, find_attendance_row rows a.record_id = some n →
         record_attendance now rows a =
           (true, rows.set (n - 1)
             (AttendanceRecord.to_sheet_row { a with updated_at := some now })))) := by
  intro now rows a h
  simp only [record_attendance, h, if_true]
  unfold update_attendance
  cases hf : find_attendance_row rows a.record_id with
  | none => simp
  | some n => simp [List.length_set]

/-- C1 counterexample: a single `record_attendance` call can leave two
non-cleared rows for the pair (E1, M1).  The store holds the pairs (E1, M1)
(record id RA) and (E2, M2) (record id RB); the incoming record is a validly
constructed record for (E1, M1) whose record id is RB, so the duplicate
check finds the pair's existing row but `update_attendance` rewrites the
other row, leaving the pair-uniqueness invariant broken — the call neither
updated the pair's existing row nor kept at most one row per pair. -/
theorem c1_counterexample :
    AttendanceRecord.validate attClash = true ∧
    ((get_all_attendance "T2" [rowRA, rowRB]).filter
        (fun r => r.event_id == "E1" && r.member_id == "M1")).length = 1 ∧
    ((get_all_attendance "T2"
        (record_attendance "T1" [rowRA, rowRB] attClash).2).filter
        (fun r => r.event_id == "E1" && r.member_id == "M1")).length = 2 :=
  ⟨by decide, by decide, by decide⟩

/-- C1 witness: in the ordinary duplicate case — the incoming record carries
a freshly generated record id that matches no stored row — the call appends
nothing, changes nothing and returns `False`. -/
theorem c1_witness :
    record_attendance "T1" [rowRA] attFresh = (false, [rowRA]) :=
  (c1_pair_update "T1" [rowRA] attFresh (by decide)).2.1 (by decide)

theorem ewr_success {α : Type} (f : Nat → Outcome α) (delay : ℚ) (r : α) :
    ∀ (k attempt remaining : Nat), k ≤ remaining →
      (∀ i, i < k → ∃ s, f (attempt + i) = .err (.http s) ∧
        (s = 429 ∨ s = 500 ∨ s = 502 ∨ s = 503 ∨ s = 504)) →
      f (attempt + k) = .ok r →
      executeWithRetryAux f delay attempt remaining =
        ⟨.ok r, (List.range k).map (fun i => delay * 2 ^ (attempt + i)),
         k + 1⟩ := by
  intro k
  induction k with
  | zero =>
    intro attempt remaining _ _ hok
    rw [Nat.add_zero] at hok
    cases remaining <;> simp [executeWithRetryAux, hok]
  | succ k ih =>
    intro attempt remaining hk hf hok
    obtain ⟨rem, rfl⟩ : ∃ rem, remaining = rem + 1 := by
      cases remaining with
      | zero => omega
      | succ m => exact ⟨m, rfl⟩
    obtain ⟨s, hs, hsmem⟩ := hf 0 (Nat.succ_pos k)
    rw [Nat.add_zero] at hs
    have htail := ih (attempt + 1) rem (by omega)
      (fun i hi => by
        obtain ⟨s', hs', hm'⟩ := hf (i + 1) (by omega)
        exact ⟨s', by rw [← hs']; congr 1; omega, hm'⟩)
      (by rw [← hok]; congr 1; omega)
    have hrange : (List.range (k + 1)).map
          (fun i => delay * 2 ^ (attempt + i)) =
        delay * 2 ^ attempt ::
          (List.range k).map (fun i => delay * 2 ^ (attempt + 1 + i)) := by
      rw [List.range_succ_eq_map, List.map_cons, List.map_map]
      have hfun : ((fun i => delay * 2 ^ (attempt + i)) ∘ Nat.succ) =
          (fun i => delay * 2 ^ (attempt + 1 + i)) := by
        funext i
        simp only [Function.comp_apply]
        have h' : attempt + Nat.succ i = attempt + 1 + i := by omega
        rw [h']
      rw [hfun]
      norm_num
    rcases hsmem with rfl | rfl | rfl | rfl | rfl <;>
      simp [executeWithRetryAux, hs, htail, hrange]

theorem ewr_exhaust {α : Type} (f : Nat → Outcome α) (delay : ℚ) :
    ∀ (remaining attempt : Nat),
      (∀ i, i ≤ remaining → ∃ s, f (attempt + i) = .err (.http s) ∧
        (s = 429 ∨ s = 500 ∨ s = 502 ∨ s = 503 ∨ s = 504)) →
      ∀ e, f (attempt + remaining) = .err e →
      (executeWithRetryAux f delay attempt remaining).result = .err e := by
  intro remaining
  induction remaining with
  | zero =>
    intro attempt _ e he
    rw [Nat.add_zero] at he
    simp [executeWithRetryAux, he]
  | succ rem ih =>
    intro attempt hf e he
    obtain ⟨s, hs, hsmem⟩ := hf 0 (Nat.zero_le _)
    rw [Nat.add_zero] at hs
    have htail := ih (attempt + 1)
      (fun i hi => by
        obtain ⟨s', hs', hm'⟩ := hf (i + 1) (by omega)
        exact ⟨s', by rw [← hs']; congr 1; omega, hm'⟩)
      e (by rw [← he]; congr 1; omega)
    rcases hsmem with rfl | rfl | rfl | rfl | rfl <;>
      simp [executeWithRetryAux, hs, htail]

/-- C3: requests failing with HTTP 429 or a transient 5xx are retried with
exponential backoff `delay * 2 ^ attempt`, up to `max_retries` retries
(source default 3); success on any attempt returns the response unchanged
with one execution per attempt made; when every allowed attempt fails with a
transient error, the last attempt's error is propagated unchanged; and a
request failing twice with a rate limit before succeeding is retried exactly
twice (three executions) with strictly increasing waits and its response is
returned. -/
theorem c3_retry_backoff :
    (∀ (α : Type) (f : Nat → Outcome α) (max_retries k : Nat) (delay : ℚ)
        (r : α), k ≤ max_retries →
      (∀ i, i < k → ∃ s, f i = .err (.http s) ∧
        (s = 429 ∨ s = 500 ∨ s = 502 ∨ s = 503 ∨ s = 504)) →
      f k = .ok r →
      execute_with_retry f max_retries delay =
        ⟨.ok r, (List.range k).map (fun i => delay * 2 ^ i), k + 1⟩) ∧
    (∀ (α : Type) (f : Nat → Outcome α) (max_retries : Nat) (delay : ℚ)
        (e : SheetsApiError),
      (∀ i, i ≤ max_retries → ∃ s, f i = .err (.http s) ∧
        (s = 429 ∨ s = 500 ∨ s = 502 ∨ s = 503 ∨ s = 504)) →
      f max_retries = .err e →
      (execute_with_retry f max_retries delay).result = .err e) ∧
    (∀ (α : Type) (f : Nat → Outcome α) (delay : ℚ) (r : α), 0 < delay →
      f 0 = .err (.http 429) → f 1 = .err (.http 429) → f 2 = .ok r →
      execute_with_retry f 3 delay = ⟨.ok r, [delay, delay * 2], 3⟩ ∧
      delay < delay * 2) := by
  refine ⟨?_, ?_, ?_⟩
  · intro α f max_retries k delay r hk hf hok
    have h := ewr_success f delay r k 0 max_retries hk
      (fun i hi => by simpa using hf i hi) (by simpa using hok)
    simpa using h
  · intro α f max_retries delay e hf he
    have h := ewr_exhaust f delay max_retries 0
      (fun i hi => by simpa using hf i hi) e (by simpa using he)
    simpa [execute_with_retry] using h
  · intro α f delay r hd h0 h1 h2
    constructor
    · have h := ewr_success f delay r 2 0 3 (by omega)
        (fun i hi => by
          interval_cases i
          · exact ⟨429, by simpa using h0, Or.inl rfl⟩
          · exact ⟨429, by simpa using h1, Or.inl rfl⟩)
        (by simpa using h2)
      rw [execute_with_retry, h]
      congr 1
      show [delay * 2 ^ (0 + 0), delay * 2 ^ (0 + 1)] = [delay, delay * 2]
      norm_num
    · linarith

/-- C3 witness: the backoff law applied to the mock that fails twice with
HTTP 429 and then succeeds, at the source defaults. -/
theorem c3_witness :
    execute_with_retry reqRateLimited 3 1 =
      ⟨.ok "resp", [1, 1 * 2], 3⟩ ∧ (1 : ℚ) < 1 * 2 :=
  c3_retry_backoff.2.2 String reqRateLimited 1 "resp" (by norm_num)
    (by decide) (by decide) (by decide)

/-- C4 counterexample: a non-HTTP exception is neither a rate-limit nor a
5xx response, yet `_execute_with_retry` does not fail on the first attempt
for it: the mock that raises one generic exception and then succeeds is
slept on once (`delay` seconds) and executed twice, and the call returns the
second attempt's response. -/
theorem c4_counterexample :
    reqFlaky 0 = .err .otherExc ∧
    (∀ s, SheetsApiError.otherExc ≠ .http s) ∧
    execute_with_retry reqFlaky 3 1 = ⟨.ok "resp", [1], 2⟩ :=
  ⟨rfl, fun _ h => SheetsApiError.noConfusion h, by decide⟩

/-- C4 (amended): every HTTP-error response whose status is neither 429 nor
500/502/503/504 (permission, not-found, malformed-request, ...) is
propagated on the first attempt, with no retry and no sleep; only non-HTTP
exceptions are instead retried, with a constant `delay` sleep. -/
theorem c4_nonretryable_http :
    ∀ (α : Type) (f : Nat → Outcome α) (max_retries : Nat) (delay : ℚ)
        (s : Nat),
      f 0 = .err (.http s) → s ≠ 429 →
      ¬(s = 500 ∨ s = 502 ∨ s = 503 ∨ s = 504) →
      execute_with_retry f max_retries delay = ⟨.err (.http s), [], 1⟩ := by
  intro α f max_retries delay s h0 h1 h2
  cases max_retries with
  | zero => simp [execute_with_retry, executeWithRetryAux, h0]
  | succ m => simp [execute_with_retry, executeWithRetryAux, h0, h1, h2]

/-- C4 witness: the amended law applied to the mock that always returns an
HTTP 403 permission error: it fails at once, with no sleep and a single
execution. -/
theorem c4_witness :
    execute_with_retry reqForbidden 3 1 = ⟨.err (.http 403), [], 1⟩ :=
  c4_nonretryable_http String reqForbidden 3 1 403 rfl (by decide) (by decide)

theorem events_time_valid {now : String} {rows : List (List String)}
    {x : Event} (hx : x ∈ get_all_events now rows) :
    (parseTime x.start_time).isSome = true ∧
    (parseTime x.end_time).isSome = true := by
  obtain ⟨r, hr⟩ := mem_readAll hx
  have hv : x.validate = true := event_validate_construct hr
  simp only [Event.validate, Bool.and_eq_true, decide_eq_true_eq,
    is_valid_time] at hv
  tauto

theorem check_conflict_loop_of_mem (e ev : Event) (ns ne es ee : Nat)
    (hnc : ev.status ≠ "cancelled")
    (h1 : parseTime e.start_time = some ns)
    (h2 : parseTime e.end_time = some ne)
    (h3 : parseTime ev.start_time = some es)
    (h4 : parseTime ev.end_time = some ee)
    (hov1 : ns < ee) (hov2 : es < ne) :
    ∀ l : List Event,
      (∀ x ∈ l, (parseTime x.start_time).isSome = true ∧
        (parseTime x.end_time).isSome = true) →
      ev ∈ l → check_conflict_loop e l = true := by
  intro l
  induction l with
  | nil => intro _ hm; simp at hm
  | cons x t ih =>
    intro hl hm
    have htail : (∀ y ∈ t, (parseTime y.start_time).isSome = true ∧
        (parseTime y.end_time).isSome = true) :=
      fun y hy => hl y (List.mem_cons_of_mem _ hy)
    rcases List.mem_cons.mp hm with rfl | hmt
    · have hxc : ¬(ev.status == "cancelled") = true := by
        simp [hnc]
      simp only [check_conflict_loop, if_neg hxc, h1, h2, h3, h4]
      simp [hov1, hov2]
    · by_cases hxc : (x.status == "cancelled") = true
      · simp only [check_conflict_loop, if_pos hxc]
        exact ih htail hmt
      · obtain ⟨hxs, hxe⟩ := hl x (List.mem_cons_self x t)
        obtain ⟨es', hes'⟩ := Option.isSome_iff_exists.mp hxs
        obtain ⟨ee', hee'⟩ := Option.isSome_iff_exists.mp hxe
        simp only [check_conflict_loop, if_neg hxc, h1, h2, hes', hee']
        split
        · rfl
        · exact ih htail hmt

theorem check_conflict_loop_cancelled (e : Event) :
    ∀ l : List Event, (∀ x ∈ l, x.status = "cancelled") →
      check_conflict_loop e l = false := by
  intro l
  induction l with
  | nil => intro _; rfl
  | cons x t ih =>
    intro hl
    have hx : (x.status == "cancelled") = true :=
      beq_iff_eq.mpr (hl x (List.mem_cons_self x t))
    simp only [check_conflict_loop, if_pos hx]
    exact ih (fun y hy => hl y (List.mem_cons_of_mem _ hy))

/-- C5: `create_event` fails and appends nothing whenever the new event's
window overlaps (new_start < existing_end and new_end > existing_start) the
window of a same-day non-cancelled stored event; when every same-day stored
event is cancelled it proceeds and appends; when the conflict scan's read
fails the check degrades open and creation proceeds; and concretely, after
an 18:00-20:00 event on 2024-03-20 exists, creating 19:00-21:00 that day
fails while the merely adjacent 20:00-21:00 succeeds. -/
theorem c5_event_conflict :
    (∀ (now : String) (rows : List (List String)) (e ev : Event)
        (ns ne es ee : Nat),
      get_event_by_id now rows e.event_id = none →
      ev ∈ get_events_by_date now rows e.event_date →
      ev.status ≠ "cancelled" →
      parseTime e.start_time = some ns → parseTime e.end_time = some ne →
      parseTime ev.start_time = some es → parseTime ev.end_time = some ee →
      ns < ee → es < ne →
      create_event now false rows e = (false, rows)) ∧
    (∀ (now : String) (rows : List (List String)) (e : Event),
      get_event_by_id now rows e.event_id = none →
      (∀ ev ∈ get_events_by_date now rows e.event_date,
        ev.status = "cancelled") →
      create_event now false rows e = (true, rows ++ [e.to_sheet_row])) ∧
    (∀ (now : String) (rows : List (List String)) (e : Event),
      get_event_by_id now rows e.event_id = none →
      create_event now true rows e = (true, rows ++ [e.to_sheet_row])) ∧
    (create_event "T1" false rowsEV eventEV19 = (false, rowsEV) ∧
     create_event "T1" false rowsEV eventEV20 =
       (true, rowsEV ++ [eventEV20.to_sheet_row])) := by
  refine ⟨?_, ?_, ?_, by decide, by decide⟩
  · intro now rows e ev ns ne es ee hid hmem hnc h1 h2 h3 h4 hov1 hov2
    have hvalid : ∀ x ∈ get_events_by_date now rows e.event_date,
        (parseTime x.start_time).isSome = true ∧
        (parseTime x.end_time).isSome = true :=
      fun x hx => events_time_valid (List.mem_of_mem_filter hx)
    have hconf : check_event_conflict now false rows e = true :=
      check_conflict_loop_of_mem e ev ns ne es ee hnc h1 h2 h3 h4 hov1 hov2
        (get_events_by_date now rows e.event_date) hvalid hmem
    simp [create_event, hid, hconf]
  · intro now rows e hid hcan
    have hconf : check_event_conflict now false rows e = false :=
      check_conflict_loop_cancelled e
        (get_events_by_date now rows e.event_date) hcan
    simp [create_event, hid, hconf]
  · intro now rows e hid
    have hconf : check_event_conflict now true rows e = false := rfl
    simp [create_event, hid, hconf]

/-- C5 witness: the overlap branch applied at the concrete store holding the
18:00-20:00 event, against the overlapping 19:00-21:00 event. -/
theorem c5_witness :
    create_event "T1" false rowsEV eventEV19 = (false, rowsEV) :=
  c5_event_conflict.1 "T1" rowsEV eventEV19
    { eventEV18 with created_at := some "T0", updated_at := some "T1" }
    (19 * 60) (21 * 60) (18 * 60) (20 * 60)
    (by decide) (by decide) (by decide)
    (by decide) (by decide) (by decide) (by decide) (by decide) (by decide)

set_option maxHeartbeats 1000000 in
theorem member_row_parse (now : String) (m : Member)
    (hv : m.validate = true) :
    ∃ m', Member.from_sheet_row now m.to_sheet_row = some m' ∧
      m'.member_id = m.member_id := by
  have hvp := hv
  simp only [Member.validate, Bool.and_eq_true, Bool.or_eq_true,
    decide_eq_true_eq] at hvp
  have hrole : m.role = "member" ∨ m.role = "exec" := by tauto
  have hms : m.membership_status = "active" ∨ m.membership_status = "inactive" ∨
      m.membership_status = "suspended" := by tauto
  have hps : m.payment_status = "paid" ∨ m.payment_status = "pending" ∨
      m.payment_status = "overdue" := by tauto
  have hrole' : m.role ≠ "" := by rcases hrole with h | h <;> simp [h]
  have hms' : m.membership_status ≠ "" := by
    rcases hms with h | h | h <;> simp [h]
  have hps' : m.payment_status ≠ "" := by
    rcases hps with h | h | h <;> simp [h]
  have hstep : Member.from_sheet_row now m.to_sheet_row =
      Member.construct now
        { member_id := m.member_id, first_name := m.first_name,
          last_name := m.last_name, email := m.email, phone := m.phone,
          wix_user_id := cellToOpt (optToCell m.wix_user_id),
          role := pyOr m.role "member",
          membership_status := pyOr m.membership_status "active",
          payment_status := pyOr m.payment_status "pending",
          join_date := cellToOpt (optToCell m.join_date),
          graduation_year := cellToOpt (optToCell m.graduation_year),
          major := cellToOpt (optToCell m.major),
          emergency_contact := cellToOpt (optToCell m.emergency_contact),
          emergency_phone := cellToOpt (optToCell m.emergency_phone),
          notes := cellToOpt (optToCell m.notes),
          created_at := cellToOpt (optToCell m.created_at),
          updated_at := cellToOpt (optToCell m.updated_at) } := rfl
  rw [hstep, pyOr_of_ne _ _ hrole', pyOr_of_ne _ _ hms', pyOr_of_ne _ _ hps']
  unfold Member.construct
  split
  · exact ⟨_, rfl, rfl⟩
  · rename_i hfalse
    exact absurd hv hfalse

/-- The number of live (readable) member rows carrying a given id. -/
def liveMemberCount (now : String) (rows : List (List String))
    (mid : String) : Nat :=
  ((get_all_members now rows).filter (fun x => x.member_id == mid)).length

/-- C6: when a member with the same id is already live in the store,
`create_member` returns `False` and appends nothing; consequently, creating
the same valid member twice against a readable store that does not yet hold
its id succeeds once, fails the second time, and leaves exactly one live row
for that id. -/
theorem c6_duplicate_member :
    (∀ (now : String) (rows : List (List String)) (m ex : Member),
      get_member_by_id now rows m.member_id = some ex →
      create_member now rows m = (false, rows)) ∧
    (∀ (now : String) (rows : List (List String)) (m : Member),
      firstRowOk rows = true → m.validate = true →
      m.member_id ≠ "Member ID" →
      get_member_by_id now rows m.member_id = none →
      create_member now rows m = (true, rows ++ [m.to_sheet_row]) ∧
      create_member now (rows ++ [m.to_sheet_row]) m =
        (false, rows ++ [m.to_sheet_row]) ∧
      liveMemberCount now (rows ++ [m.to_sheet_row]) m.member_id = 1) := by
  constructor
  · intro now rows m ex hex
    simp [create_member, hex]
  · intro now rows m hfr hv hne hid
    obtain ⟨m', hm', hmid⟩ := member_row_parse now m hv
    have happ : get_all_members now (rows ++ [m.to_sheet_row]) =
        get_all_members now rows ++ [m'] := by
      unfold get_all_members
      rw [readAll_append "Member ID" (Member.from_sheet_row now) rows
          m.to_sheet_row hfr ?_, hm']
      · rfl
      · intro _
        refine ⟨?_, by simp [Member.to_sheet_row]⟩
        show (m.to_sheet_row).head?.getD "" ≠ "Member ID"
        simpa [Member.to_sheet_row] using hne
    have hfind0 : (get_all_members now rows).find?
        (fun x => x.member_id == m.member_id) = none := hid
    have hid2 : get_member_by_id now (rows ++ [m.to_sheet_row])
        m.member_id = some m' := by
      unfold get_member_by_id
      rw [happ, List.find?_append, hfind0]
      simp [hmid]
    have hfilter0 : (get_all_members now rows).filter
        (fun x => x.member_id == m.member_id) = [] := by
      rw [List.filter_eq_nil_iff]
      intro x hx
      exact List.find?_eq_none.mp hfind0 x hx
    refine ⟨by simp [create_member, hid], by simp [create_member, hid2], ?_⟩
    unfold liveMemberCount
    rw [happ, List.filter_append, hfilter0]
    simp [hmid]

/-- C6 witness: creating `memberMY` twice against the empty store. -/
theorem c6_witness :
    create_member "T1" [] memberMY = (true, [memberMY.to_sheet_row]) ∧
    create_member "T1" [memberMY.to_sheet_row] memberMY =
      (false, [memberMY.to_sheet_row]) ∧
    liveMemberCount "T1" [memberMY.to_sheet_row] memberMY.member_id = 1 := by
  have h := c6_duplicate_member.2 "T1" [] memberMY (by decide) (by decide)
    (by decide) (by decide)
  simpa using h

/-- C7 counterexample: a batch whose first row is the empty row is not
handled row-by-row — the header probe `values[0][0]` raises, the outer
handler returns `[]`, and a later row that parses successfully is dropped
with the whole batch. -/
theorem c7_counterexample :
    (Member.from_sheet_row "T1" rowMX).isSome = true ∧
    get_all_members "T1" [[], rowMX] = [] :=
  ⟨by decide, by decide⟩

/-- C7 (amended): provided the first row of the response is nonempty, each
read-all skips the leading row exactly when its first cell equals the
entity's canonical first header value, parses every remaining row
independently, and skips rows that fail to parse while returning every
successfully parsed entity; when the first row is the empty row, the header
probe raises and the whole batch is returned as `[]`. -/
theorem c7_read_all :
    (∀ (now : String) (r0 : List String) (rest : List (List String)),
      r0 ≠ [] →
      get_all_members now (r0 :: rest) =
        (if r0.head?.getD "" = "Member ID" then []
         else (Member.from_sheet_row now r0).toList) ++
          rest.filterMap (Member.from_sheet_row now)) ∧
    (∀ (now : String) (r0 : List String) (rest : List (List String)),
      r0 ≠ [] →
      get_all_events now (r0 :: rest) =
        (if r0.head?.getD "" = "Event ID" then []
         else (Event.from_sheet_row now r0).toList) ++
          rest.filterMap (Event.from_sheet_row now)) ∧
    (∀ (now : String) (r0 : List String) (rest : List (List String)),
      r0 ≠ [] →
      get_all_attendance now (r0 :: rest) =
        (if r0.head?.getD "" = "Record ID" then []
         else (AttendanceRecord.from_sheet_row now r0).toList) ++
          rest.filterMap (AttendanceRecord.from_sheet_row now)) := by
  refine ⟨?_, ?_, ?_⟩ <;> intro now r0 rest h <;> cases r0 with
  | nil => exact absurd rfl h
  | cons c cs =>
    first
    | simpa [get_all_members] using
        readAll_cons "Member ID" (Member.from_sheet_row now) c cs rest
    | simpa [get_all_events] using
        readAll_cons "Event ID" (Event.from_sheet_row now) c cs rest
    | simpa [get_all_attendance] using
        readAll_cons "Record ID" (AttendanceRecord.from_sheet_row now) c cs rest

/-- C7 witness: the amended read law applied to a concrete batch whose tail
still contains an unparsable row. -/
theorem c7_witness :
    get_all_members "T1" (rowMX :: [[], rowMX]) =
      (if rowMX.head?.getD "" = "Member ID" then []
       else (Member.from_sheet_row "T1" rowMX).toList) ++
        [[], rowMX].filterMap (Member.from_sheet_row "T1") :=
  c7_read_all.1 "T1" rowMX [[], rowMX] (by decide)

/-- C8: the event summary's per-status counts are exactly the filters of the
event's records; with records present the attendance rate is
`(present + late) / total * 100` rounded to one decimal, and with no records
the rate is reported as 0 instead of dividing by zero; on the concrete
multiset of four records (present, present, absent, late) the rate is 75.0
with counts matching exactly. -/
theorem c8_attendance_summary :
    (∀ (now : String) (rows : List (List String)) (eid : String),
      (get_event_attendance_summary now rows eid).total_records =
        (get_attendance_by_event now rows eid).length ∧
      (get_event_attendance_summary now rows eid).present =
        ((get_attendance_by_event now rows eid).filter
          (fun r => r.attendance_status == "present")).length ∧
      (get_event_attendance_summary now rows eid).absent =
        ((get_attendance_by_event now rows eid).filter
          (fun r => r.attendance_status == "absent")).length ∧
      (get_event_attendance_summary now rows eid).excused =
        ((get_attendance_by_event now rows eid).filter
          (fun r => r.attendance_status == "excused")).length ∧
      (get_event_attendance_summary now rows eid).late =
        ((get_attendance_by_event now rows eid).filter
          (fun r => r.attendance_status == "late")).length ∧
      ((get_attendance_by_event now rows eid).length ≠ 0 →
        (get_event_attendance_summary now rows eid).attendance_rate =
          pyRound1 (Rat.divInt
            ((((get_event_attendance_summary now rows eid).present +
                (get_event_attendance_summary now rows eid).late : Nat) : ℤ)
              * 100)
            (((get_attendance_by_event now rows eid).length : Nat) : ℤ))) ∧
      ((get_attendance_by_event now rows eid).length = 0 →
        (get_event_attendance_summary now rows eid).attendance_rate = 0)) ∧
    get_event_attendance_summary "T1" rowsSummary "E1" =
      { total_records := 4, present := 2, absent := 1, excused := 0,
        late := 1, attendance_rate := 75, average_duration := 0 } := by
  constructor
  · intro now rows eid
    refine ⟨rfl, rfl, rfl, rfl, rfl, ?_, ?_⟩
    · intro h
      have h' : 0 < (get_attendance_by_event now rows eid).length :=
        Nat.pos_of_ne_zero h
      simp only [get_event_attendance_summary, summarize]
      rw [if_pos h']
    · intro h
      simp only [get_event_attendance_summary, summarize]
      rw [if_neg (by omega)]
  · decide

/-- C8 witness: the rate formula instantiated on the concrete four-record
store. -/
theorem c8_witness :
    (get_event_attendance_summary "T1" rowsSummary "E1").attendance_rate =
      pyRound1 (Rat.divInt
        ((((get_event_attendance_summary "T1" rowsSummary "E1").present +
            (get_event_attendance_summary "T1" rowsSummary "E1").late : Nat)
          : ℤ) * 100)
        (((get_attendance_by_event "T1" rowsSummary "E1").length : Nat) : ℤ)) :=
  ((c8_attendance_summary.1 "T1" rowsSummary "E1").2.2.2.2.2.1 (by decide))

set_option maxHeartbeats 1000000 in
theorem event_parse_of_valid (now : String) (e : Event)
    (hv : e.validate = true) :
    ∃ e', Event.from_sheet_row now e.to_sheet_row = some e' ∧
      e'.max_attendees =
        (if isDigitStr (maxAttendeesCell e.max_attendees)
         then some (Int.ofNat (strToNat (maxAttendeesCell e.max_attendees)))
         else none) := by
  have hvp := hv
  simp only [Event.validate, Bool.and_eq_true, Bool.or_eq_true,
    decide_eq_true_eq] at hvp
  have hst : e.status = "scheduled" ∨ e.status = "cancelled" ∨
      e.status = "completed" := by tauto
  have hst' : e.status ≠ "" := by rcases hst with h | h | h <;> simp [h]
  have hstep : Event.from_sheet_row now e.to_sheet_row =
      Event.construct now
        { event_id := e.event_id, event_name := e.event_name,
          event_type := e.event_type, event_date := e.event_date,
          start_time := e.start_time, end_time := e.end_time,
          location := e.location,
          description := cellToOpt (optToCell e.description),
          is_mandatory :=
            (if (if e.is_mandatory then "true" else "false") = "" then false
             else strToLower (if e.is_mandatory then "true" else "false") ==
               "true"),
          max_attendees :=
            (if isDigitStr (maxAttendeesCell e.max_attendees)
             then some (Int.ofNat (strToNat (maxAttendeesCell e.max_attendees)))
             else none),
          created_by := e.created_by,
          status := pyOr e.status "scheduled",
          created_at := cellToOpt (optToCell e.created_at),
          updated_at := cellToOpt (optToCell e.updated_at) } := rfl
  rw [hstep, pyOr_of_ne _ _ hst']
  set R : Event :=
      { event_id := e.event_id, event_name := e.event_name,
        event_type := e.event_type, event_date := e.event_date,
        start_time := e.start_time, end_time := e.end_time,
        location := e.location,
        description := cellToOpt (optToCell e.description),
        is_mandatory :=
          (if (if e.is_mandatory then "true" else "false") = "" then false
           else strToLower (if e.is_mandatory then "true" else "false") ==
             "true"),
        max_attendees :=
          (if isDigitStr (maxAttendeesCell e.max_attendees)
           then some (Int.ofNat (strToNat (maxAttendeesCell e.max_attendees)))
           else none),
        created_by := e.created_by,
        status := e.status,
        created_at := cellToOpt (optToCell e.created_at),
        updated_at := cellToOpt (optToCell e.updated_at) } with hR
  have hvR : R.validate = true := by rw [hR]; exact hv
  unfold Event.construct
  rw [if_pos hvR]
  refine ⟨_, rfl, ?_⟩
  show R.max_attendees = _
  rw [hR]

/-- C9: serializing a valid event whose `max_attendees` is the integer 0
writes the empty Max Attendees cell (the truthiness guard treats 0 like
`None`), and parsing the row back yields `max_attendees = None` — the
0-versus-absent distinction is lost across the row interface. -/
theorem c9_max_attendees_zero :
    ∀ (now : String) (e : Event), e.validate = true →
      e.max_attendees = some 0 →
      e.to_sheet_row.getD 9 "" = "" ∧
      ∃ e', Event.from_sheet_row now e.to_sheet_row = some e' ∧
        e'.max_attendees = none := by
  intro now e hv hm
  constructor
  · show maxAttendeesCell e.max_attendees = ""
    rw [hm]
    rfl
  · obtain ⟨e', he', hmax⟩ := event_parse_of_valid now e hv
    refine ⟨e', he', ?_⟩
    rw [hmax, hm]
    rfl

/-- C9 witness: the lost-zero law applied to the concrete event
`eventMaxZero`. -/
theorem c9_witness :
    eventMaxZero.to_sheet_row.getD 9 "" = "" ∧
    ∃ e', Event.from_sheet_row "T1" eventMaxZero.to_sheet_row = some e' ∧
      e'.max_attendees = none :=
  c9_max_attendees_zero "T1" eventMaxZero (by decide) rfl

/-- C10: when a member row's role, membership-status and payment-status
cells are empty, a successful parse substitutes the defaults "member",
"active" and "pending"; when an event row's status cell is empty, a
successful parse substitutes "scheduled" — so a stored row with a blank
membership-status cell reads back as an active member. -/
theorem c10_enum_defaults :
    (∀ (now : String) (row : List String) (m : Member),
      row.getD 6 "" = "" → row.getD 7 "" = "" → row.getD 8 "" = "" →
      Member.from_sheet_row now row = some m →
      m.role = "member" ∧ m.membership_status = "active" ∧
        m.payment_status = "pending") ∧
    (∀ (now : String) (row : List String) (e : Event),
      row.getD 11 "" = "" →
      Event.from_sheet_row now row = some e → e.status = "scheduled") := by
  constructor
  · intro now row m h6 h7 h8 hp
    obtain ⟨hr, hms, hps⟩ := Member.construct_enums hp
    have h6' : cell row 6 = "" := h6
    have h7' : cell row 7 = "" := h7
    have h8' : cell row 8 = "" := h8
    refine ⟨?_, ?_, ?_⟩
    · rw [hr]
      simp [pyOr, h6']
    · rw [hms]
      simp [pyOr, h7']
    · rw [hps]
      simp [pyOr, h8']
  · intro now row e h11 hp
    have hs := Event.construct_status hp
    have h11' : cell row 11 = "" := h11
    rw [hs]
    simp [pyOr, h11']

/-- C10 witness: the default-substitution law applied to concrete rows with
blank enum cells. -/
theorem c10_witness :
    memberBlankParsed.role = "member" ∧
    memberBlankParsed.membership_status = "active" ∧
    memberBlankParsed.payment_status = "pending" ∧
    eventBlankParsed.status = "scheduled" := by
  have h1 := c10_enum_defaults.1 "T1" rowBlankEnums memberBlankParsed
    (by decide) (by decide) (by decide) (by decide)
  have h2 := c10_enum_defaults.2 "T1" rowBlankStatus eventBlankParsed
    (by decide) (by decide)
  exact ⟨h1.1, h1.2.1, h1.2.2, h2⟩
